import Mathlib

/-!
Verification of the tariff-calculation and time-series analytics engine of
`app.py` (smart power assistant).  The engine is embedded shallowly:

* timestamps are records of an absolute minute count plus the calendar
  fields the code reads (`month`, `day`, `hour`, `minute`, `dayofweek`,
  `year`); the engine never derives one field from another, so the
  embedding keeps them as independent data, exactly as pandas hands them
  to the code;
* money and energy amounts are exact rationals (`ℚ`);
* a pandas dataframe of readings is a chronologically ordered `List Reading`;
* the `try/except` body of `get_core_kpis` is a sequence of six update
  steps over the KPI record; an exception raised in step `i` is modelled
  by running only the first `i` steps, which matches CPython semantics
  (the dict mutated in place keeps every write made before the raise).
-/

set_option maxRecDepth 4000

/-- A pandas timestamp as the engine consumes it: an absolute time in
minutes together with the calendar fields the code reads. -/
structure Timestamp where
  abs : ℤ
  year : ℕ
  month : ℕ
  day : ℕ
  hour : ℕ
  minute : ℕ
  dayofweek : ℕ
deriving DecidableEq

/-- One row of the history dataframe: timestamp index plus `power_kW`. -/
structure Reading where
  ts : Timestamp
  power : ℚ
deriving DecidableEq

/-- Placeholder reading used as fold/default seed on empty lists; every
use is guarded by a non-emptiness check, mirroring the `df_history.empty`
guard in the code. -/
def noReading : Reading := ⟨⟨0, 0, 1, 1, 0, 0, 0⟩, 0⟩

/-- `PROGRESSIVE_RATES` from `app.py`: (bracket capacity, summer rate,
non-summer rate); `float('inf')` on the last bracket becomes `none`. -/
def PROGRESSIVE_RATES : List (Option ℚ × ℚ × ℚ) :=
  [(some 120, 1.68, 1.68), (some 210, 2.45, 2.16), (some 170, 3.7, 3.03),
   (some 200, 5.04, 4.14), (some 300, 6.24, 5.07), (none, 8.46, 6.63)]

/-- Python's `min(kwh_remaining, bracket_kwh)` where the last bracket
capacity is `float('inf')` (`none`): the infinite capacity never binds. -/
def bracketTake : Option ℚ → ℚ → ℚ
  | none, r => r
  | some c, r => min r c

/-- The `for (bracket_kwh, *rates) in PROGRESSIVE_RATES` loop of
`calculate_progressive_cost`: `break` on `kwh_remaining <= 0`, charge
`min(kwh_remaining, bracket_kwh)` at the season rate, decrement. -/
def progressiveLoop : List (Option ℚ × ℚ × ℚ) → Bool → ℚ → ℚ → ℚ
  | [], _, _, cost => cost
  | (cap, sRate, nRate) :: rest, isSummer, remaining, cost =>
    if remaining ≤ 0 then cost
    else
      progressiveLoop rest isSummer (remaining - bracketTake cap remaining)
        (cost + bracketTake cap remaining * (if isSummer then sRate else nRate))

/-- `calculate_progressive_cost(total_kwh_month, is_summer)` from `app.py`. -/
def calculate_progressive_cost (total_kwh_month : ℚ) (is_summer : Bool) : ℚ :=
  progressiveLoop PROGRESSIVE_RATES is_summer total_kwh_month 0

/-- TOU category of a 15-minute interval. -/
inductive TouCategory where
  | peak
  | off_peak
deriving DecidableEq

/-- `TOU_RATES_DATA['basic_fee_monthly']`. -/
def basic_fee_monthly : ℚ := 75

/-- `TOU_RATES_DATA['surcharge_kwh_threshold']`. -/
def surcharge_kwh_threshold : ℚ := 2000

/-- `TOU_RATES_DATA['surcharge_rate_per_kwh']`. -/
def surcharge_rate_per_kwh : ℚ := 0.99

/-- `TOU_RATES_DATA['rates'][season][category]` with the season given as
the `is_summer` boolean the code derives it from. -/
def TOU_RATES_DATA_rates : Bool → TouCategory → ℚ
  | true, .peak => 4.71
  | true, .off_peak => 1.85
  | false, .peak => 4.48
  | false, .off_peak => 1.78

/-- `get_tou_details(timestamp)` from `app.py`: returns
(category, rate, is_summer). -/
def get_tou_details (t : Timestamp) : TouCategory × ℚ × Bool :=
  let is_summer : Bool := decide (6 ≤ t.month) && decide (t.month ≤ 9)
  let is_weekend : Bool := decide (5 ≤ t.dayofweek)
  let hour := t.hour
  let category : TouCategory :=
    if ¬ is_weekend then
      if is_summer then
        if 9 ≤ hour ∧ hour < 24 then .peak else .off_peak
      else
        if (6 ≤ hour ∧ hour < 11) ∨ (14 ≤ hour ∧ hour < 24) then .peak else .off_peak
    else .off_peak
  let rate := TOU_RATES_DATA_rates is_summer category
  (category, rate, is_summer)

example : calculate_progressive_cost 120 false = 201.6 := by
  norm_num [calculate_progressive_cost, progressiveLoop, PROGRESSIVE_RATES, bracketTake, min_def]
example : calculate_progressive_cost 0 true = 0 := by
  norm_num [calculate_progressive_cost, progressiveLoop, PROGRESSIVE_RATES, bracketTake, min_def]
example : calculate_progressive_cost 330 false = 120 * 1.68 + 210 * 2.16 := by
  norm_num [calculate_progressive_cost, progressiveLoop, PROGRESSIVE_RATES, bracketTake, min_def]
example : (get_tou_details ⟨0, 2024, 3, 4, 12, 0, 0⟩).1 = TouCategory.off_peak := by decide
example : (get_tou_details ⟨0, 2024, 3, 4, 10, 0, 0⟩).1 = TouCategory.peak := by decide
example : (get_tou_details ⟨0, 2024, 7, 6, 10, 0, 5⟩).1 = TouCategory.off_peak := by decide

/-- Season-specific rate of bracket `i` of `PROGRESSIVE_RATES`
(`rates[rate_index - 1]` in the code). -/
def bracketRate (s : Bool) (i : ℕ) : ℚ :=
  let e := PROGRESSIVE_RATES.getD i (none, 0, 0)
  if s then e.2.1 else e.2.2

lemma bracketTake_nonneg (cap : Option ℚ) (r : ℚ) (hc : ∀ c, cap = some c → 0 ≤ c)
    (hr : 0 ≤ r) : 0 ≤ bracketTake cap r := by
  cases cap with
  | none => exact hr
  | some c => exact le_min hr (hc c rfl)

lemma bracketTake_mono (cap : Option ℚ) {a b : ℚ} (hab : a ≤ b) :
    bracketTake cap a ≤ bracketTake cap b := by
  cases cap with
  | none => exact hab
  | some c => exact min_le_min hab le_rfl

lemma sub_bracketTake_mono (cap : Option ℚ) {a b : ℚ} (hab : a ≤ b) :
    a - bracketTake cap a ≤ b - bracketTake cap b := by
  cases cap with
  | none => simp [bracketTake]
  | some c =>
    simp only [bracketTake]
    rcases le_total a c with h1 | h1 <;> rcases le_total b c with h2 | h2 <;>
      simp [min_eq_left, min_eq_right, h1, h2] <;> linarith

/-- Hypothesis on a bracket table: nonnegative rates and capacities. -/
def GoodBrackets (brs : List (Option ℚ × ℚ × ℚ)) : Prop :=
  ∀ e ∈ brs, 0 ≤ e.2.1 ∧ 0 ≤ e.2.2 ∧ ∀ c, e.1 = some c → 0 ≤ c

lemma goodBrackets_progressive : GoodBrackets PROGRESSIVE_RATES := by
  intro e he
  fin_cases he <;> refine ⟨by norm_num, by norm_num, ?_⟩ <;> rintro c ⟨rfl⟩ <;> norm_num

lemma progressiveLoop_le_self (brs : List (Option ℚ × ℚ × ℚ)) (s : Bool) :
    ∀ (r c : ℚ), GoodBrackets brs → c ≤ progressiveLoop brs s r c := by
  induction brs with
  | nil => intro r c _; simp [progressiveLoop]
  | cons e rest ih =>
    intro r c hg
    obtain ⟨cap, sr, nr⟩ := e
    have hgrest : GoodBrackets rest := fun e he => hg e (List.mem_cons_of_mem _ he)
    obtain ⟨hsr, hnr, hcap⟩ := hg _ (List.mem_cons_self _ _)
    simp only [progressiveLoop]
    split
    · exact le_rfl
    · rename_i hr
      push_neg at hr
      have h1 : 0 ≤ bracketTake cap r * (if s then sr else nr) := by
        refine mul_nonneg (bracketTake_nonneg cap r hcap hr.le) ?_
        cases s <;> simpa
      calc c ≤ c + bracketTake cap r * (if s then sr else nr) := le_add_of_nonneg_right h1
        _ ≤ _ := ih _ _ hgrest

lemma progressiveLoop_mono (brs : List (Option ℚ × ℚ × ℚ)) (s : Bool) :
    ∀ (a b c d : ℚ), GoodBrackets brs → a ≤ b → c ≤ d →
      progressiveLoop brs s a c ≤ progressiveLoop brs s b d := by
  induction brs with
  | nil => intro a b c d _ _ hcd; simpa [progressiveLoop] using hcd
  | cons e rest ih =>
    intro a b c d hg hab hcd
    obtain ⟨cap, sr, nr⟩ := e
    have hgrest : GoodBrackets rest := fun e he => hg e (List.mem_cons_of_mem _ he)
    obtain ⟨hsr, hnr, hcap⟩ := hg _ (List.mem_cons_self _ _)
    have hrate : 0 ≤ (if s then sr else nr) := by cases s <;> simpa
    simp only [progressiveLoop]
    by_cases hb : b ≤ 0
    · rw [if_pos hb, if_pos (hab.trans hb)]
      exact hcd
    · rw [if_neg hb]
      push_neg at hb
      by_cases ha : a ≤ 0
      · rw [if_pos ha]
        have h1 : 0 ≤ bracketTake cap b * (if s then sr else nr) :=
          mul_nonneg (bracketTake_nonneg cap b hcap hb.le) hrate
        calc c ≤ d + bracketTake cap b * (if s then sr else nr) := by linarith
          _ ≤ _ := progressiveLoop_le_self rest s _ _ hgrest
      · rw [if_neg ha]
        refine ih _ _ _ _ hgrest (sub_bracketTake_mono cap hab) ?_
        have h2 : bracketTake cap a ≤ bracketTake cap b := bracketTake_mono cap hab
        have h3 : bracketTake cap a * (if s then sr else nr) ≤
            bracketTake cap b * (if s then sr else nr) :=
          mul_le_mul_of_nonneg_right h2 hrate
        linarith

/-- **C9.** `calculate_progressive_cost` is monotone non-decreasing in
consumption: for `0 ≤ a ≤ b` and either season, the cost at `a` is at
most the cost at `b`. -/
theorem calculate_progressive_cost_mono (a b : ℚ) (s : Bool)
    (ha : 0 ≤ a) (hab : a ≤ b) :
    calculate_progressive_cost a s ≤ calculate_progressive_cost b s :=
  progressiveLoop_mono PROGRESSIVE_RATES s a b 0 0 goodBrackets_progressive hab le_rfl

/-- Witness for C9 at the concrete pair `a = 100`, `b = 250`. -/
theorem calculate_progressive_cost_mono_witness :
    (0 : ℚ) ≤ 100 ∧ (100 : ℚ) ≤ 250 ∧
      calculate_progressive_cost 100 false ≤ calculate_progressive_cost 250 false :=
  ⟨by norm_num, by norm_num,
    calculate_progressive_cost_mono 100 250 false (by norm_num) (by norm_num)⟩

/-- **C8.** At the first bracket boundary the non-summer progressive cost
is exactly `120 × 1.68 = 201.6`: the first bracket is exhausted exactly
and no later bracket contributes. -/
theorem calculate_progressive_cost_at_120 :
    calculate_progressive_cost 120 false = 201.6 ∧ (201.6 : ℚ) = 120 * 1.68 := by
  constructor
  · norm_num [calculate_progressive_cost, progressiveLoop, PROGRESSIVE_RATES, bracketTake, min_def]
  · norm_num

/-- **C3.** Characterization of the bracket walk: for nonnegative input
the cost charges each bracket's season rate on the part of the
consumption falling in that bracket (the last, unbounded bracket
absorbing everything past 1000 kWh); the cost of 0 is 0; and a negative
input is clamped to cost 0 rather than a negative cost. -/
theorem calculate_progressive_cost_bracket_walk (kwh : ℚ) (s : Bool) :
    (0 ≤ kwh → calculate_progressive_cost kwh s =
      bracketRate s 0 * min kwh 120
      + bracketRate s 1 * min (max (kwh - 120) 0) 210
      + bracketRate s 2 * min (max (kwh - 330) 0) 170
      + bracketRate s 3 * min (max (kwh - 500) 0) 200
      + bracketRate s 4 * min (max (kwh - 700) 0) 300
      + bracketRate s 5 * max (kwh - 1000) 0)
    ∧ calculate_progressive_cost 0 s = 0
    ∧ (kwh < 0 → calculate_progressive_cost kwh s = 0) := by
  refine ⟨?_, ?_, ?_⟩
  · intro h0
    rcases h0.eq_or_lt with h0 | hpos
    · rw [← h0]
      norm_num [calculate_progressive_cost, progressiveLoop, PROGRESSIVE_RATES, bracketTake,
        bracketRate, min_def, max_def]
    · have hn : ¬ kwh ≤ 0 := not_le.mpr hpos
      rcases le_or_lt kwh 120 with h1 | h1
      · have f1 : min kwh 120 = kwh := min_eq_left h1
        have g1 : max (kwh - 120) 0 = 0 := max_eq_right (by linarith)
        have g2 : max (kwh - 330) 0 = 0 := max_eq_right (by linarith)
        have g3 : max (kwh - 500) 0 = 0 := max_eq_right (by linarith)
        have g4 : max (kwh - 700) 0 = 0 := max_eq_right (by linarith)
        have g5 : max (kwh - 1000) 0 = 0 := max_eq_right (by linarith)
        norm_num [calculate_progressive_cost, PROGRESSIVE_RATES, progressiveLoop, bracketTake,
          bracketRate, hn, f1, g1, g2, g3, g4, g5]
        cases s <;> norm_num <;> ring
      · rcases le_or_lt kwh 330 with h2 | h2
        · have f1 : min kwh 120 = (120 : ℚ) := min_eq_right (by linarith)
          have f2 : ¬ (kwh - 120 ≤ 0) := not_le.mpr (by linarith)
          have f3 : min (kwh - 120) 210 = kwh - 120 := min_eq_left (by linarith)
          have g1 : max (kwh - 120) 0 = kwh - 120 := max_eq_left (by linarith)
          have g2 : max (kwh - 330) 0 = 0 := max_eq_right (by linarith)
          have g3 : max (kwh - 500) 0 = 0 := max_eq_right (by linarith)
          have g4 : max (kwh - 700) 0 = 0 := max_eq_right (by linarith)
          have g5 : max (kwh - 1000) 0 = 0 := max_eq_right (by linarith)
          norm_num [calculate_progressive_cost, PROGRESSIVE_RATES, progressiveLoop, bracketTake,
            bracketRate, hn, f1, f2, f3, g1, g2, g3, g4, g5]
          cases s <;> norm_num <;> ring
        · rcases le_or_lt kwh 500 with h3 | h3
          · have f1 : min kwh 120 = (120 : ℚ) := min_eq_right (by linarith)
            have f2 : ¬ (kwh - 120 ≤ 0) := not_le.mpr (by linarith)
            have f3 : min (kwh - 120) 210 = (210 : ℚ) := min_eq_right (by linarith)
            have f4 : ¬ (kwh - 120 - 210 ≤ 0) := not_le.mpr (by linarith)
            have f5 : min (kwh - 120 - 210) 170 = kwh - 120 - 210 := min_eq_left (by linarith)
            have g1 : max (kwh - 120) 0 = kwh - 120 := max_eq_left (by linarith)
            have g2 : max (kwh - 330) 0 = kwh - 330 := max_eq_left (by linarith)
            have g2m : min (kwh - 330) 170 = kwh - 330 := min_eq_left (by linarith)
            have g3 : max (kwh - 500) 0 = 0 := max_eq_right (by linarith)
            have g4 : max (kwh - 700) 0 = 0 := max_eq_right (by linarith)
            have g5 : max (kwh - 1000) 0 = 0 := max_eq_right (by linarith)
            have g1m : min (kwh - 120) 210 = (210 : ℚ) := f3
            norm_num [calculate_progressive_cost, PROGRESSIVE_RATES, progressiveLoop, bracketTake,
              bracketRate, hn, f1, f2, f3, f4, f5, g1, g2, g2m, g3, g4, g5]
            cases s <;> norm_num <;> ring
          · rcases le_or_lt kwh 700 with h4 | h4
            · have f1 : min kwh 120 = (120 : ℚ) := min_eq_right (by linarith)
              have f2 : ¬ (kwh - 120 ≤ 0) := not_le.mpr (by linarith)
              have f3 : min (kwh - 120) 210 = (210 : ℚ) := min_eq_right (by linarith)
              have f4 : ¬ (kwh - 120 - 210 ≤ 0) := not_le.mpr (by linarith)
              have f5 : min (kwh - 120 - 210) 170 = (170 : ℚ) := min_eq_right (by linarith)
              have f6 : ¬ (kwh - 120 - 210 - 170 ≤ 0) := not_le.mpr (by linarith)
              have f7 : min (kwh - 120 - 210 - 170) 200 = kwh - 120 - 210 - 170 :=
                min_eq_left (by linarith)
              have g1 : max (kwh - 120) 0 = kwh - 120 := max_eq_left (by linarith)
              have g2 : max (kwh - 330) 0 = kwh - 330 := max_eq_left (by linarith)
              have g2m : min (kwh - 330) 170 = (170 : ℚ) := min_eq_right (by linarith)
              have g3 : max (kwh - 500) 0 = kwh - 500 := max_eq_left (by linarith)
              have g3m : min (kwh - 500) 200 = kwh - 500 := min_eq_left (by linarith)
              have g4 : max (kwh - 700) 0 = 0 := max_eq_right (by linarith)
              have g5 : max (kwh - 1000) 0 = 0 := max_eq_right (by linarith)
              norm_num [calculate_progressive_cost, PROGRESSIVE_RATES, progressiveLoop, bracketTake,
                bracketRate, hn, f1, f2, f3, f4, f5, f6, f7, g1, g2, g2m, g3, g3m, g4, g5]
              cases s <;> norm_num <;> ring
            · rcases le_or_lt kwh 1000 with h5 | h5
              · have f1 : min kwh 120 = (120 : ℚ) := min_eq_right (by linarith)
                have f2 : ¬ (kwh - 120 ≤ 0) := not_le.mpr (by linarith)
                have f3 : min (kwh - 120) 210 = (210 : ℚ) := min_eq_right (by linarith)
                have f4 : ¬ (kwh - 120 - 210 ≤ 0) := not_le.mpr (by linarith)
                have f5 : min (kwh - 120 - 210) 170 = (170 : ℚ) := min_eq_right (by linarith)
                have f6 : ¬ (kwh - 120 - 210 - 170 ≤ 0) := not_le.mpr (by linarith)
                have f7 : min (kwh - 120 - 210 - 170) 200 = (200 : ℚ) :=
                  min_eq_right (by linarith)
                have f8 : ¬ (kwh - 120 - 210 - 170 - 200 ≤ 0) := not_le.mpr (by linarith)
                have f9 : min (kwh - 120 - 210 - 170 - 200) 300 = kwh - 120 - 210 - 170 - 200 :=
                  min_eq_left (by linarith)
                have g1 : max (kwh - 120) 0 = kwh - 120 := max_eq_left (by linarith)
                have g2 : max (kwh - 330) 0 = kwh - 330 := max_eq_left (by linarith)
                have g2m : min (kwh - 330) 170 = (170 : ℚ) := min_eq_right (by linarith)
                have g3 : max (kwh - 500) 0 = kwh - 500 := max_eq_left (by linarith)
                have g3m : min (kwh - 500) 200 = (200 : ℚ) := min_eq_right (by linarith)
                have g4 : max (kwh - 700) 0 = kwh - 700 := max_eq_left (by linarith)
                have g4m : min (kwh - 700) 300 = kwh - 700 := min_eq_left (by linarith)
                have g5 : max (kwh - 1000) 0 = 0 := max_eq_right (by linarith)
                norm_num [calculate_progressive_cost, PROGRESSIVE_RATES, progressiveLoop,
                  bracketTake, bracketRate, hn, f1, f2, f3, f4, f5, f6, f7, f8, f9,
                  g1, g2, g2m, g3, g3m, g4, g4m, g5]
                cases s <;> norm_num <;> ring
              · have f1 : min kwh 120 = (120 : ℚ) := min_eq_right (by linarith)
                have f2 : ¬ (kwh - 120 ≤ 0) := not_le.mpr (by linarith)
                have f3 : min (kwh - 120) 210 = (210 : ℚ) := min_eq_right (by linarith)
                have f4 : ¬ (kwh - 120 - 210 ≤ 0) := not_le.mpr (by linarith)
                have f5 : min (kwh - 120 - 210) 170 = (170 : ℚ) := min_eq_right (by linarith)
                have f6 : ¬ (kwh - 120 - 210 - 170 ≤ 0) := not_le.mpr (by linarith)
                have f7 : min (kwh - 120 - 210 - 170) 200 = (200 : ℚ) :=
                  min_eq_right (by linarith)
                have f8 : ¬ (kwh - 120 - 210 - 170 - 200 ≤ 0) := not_le.mpr (by linarith)
                have f9 : min (kwh - 120 - 210 - 170 - 200) 300 = (300 : ℚ) :=
                  min_eq_right (by linarith)
                have f10 : ¬ (kwh - 120 - 210 - 170 - 200 - 300 ≤ 0) := not_le.mpr (by linarith)
                have g1 : max (kwh - 120) 0 = kwh - 120 := max_eq_left (by linarith)
                have g2 : max (kwh - 330) 0 = kwh - 330 := max_eq_left (by linarith)
                have g2m : min (kwh - 330) 170 = (170 : ℚ) := min_eq_right (by linarith)
                have g3 : max (kwh - 500) 0 = kwh - 500 := max_eq_left (by linarith)
                have g3m : min (kwh - 500) 200 = (200 : ℚ) := min_eq_right (by linarith)
                have g4 : max (kwh - 700) 0 = kwh - 700 := max_eq_left (by linarith)
                have g4m : min (kwh - 700) 300 = (300 : ℚ) := min_eq_right (by linarith)
                have g5 : max (kwh - 1000) 0 = kwh - 1000 := max_eq_left (by linarith)
                norm_num [calculate_progressive_cost, PROGRESSIVE_RATES, progressiveLoop,
                  bracketTake, bracketRate, hn, f1, f2, f3, f4, f5, f6, f7, f8, f9, f10,
                  g1, g2, g2m, g3, g3m, g4, g4m, g5]
                cases s <;> norm_num <;> ring
  · norm_num [calculate_progressive_cost, progressiveLoop, PROGRESSIVE_RATES, bracketTake, min_def]
  · intro hneg
    have : kwh ≤ 0 := hneg.le
    simp [calculate_progressive_cost, PROGRESSIVE_RATES, progressiveLoop, this]

/-- Witness for C3 at the concrete negative input `-1` (clamped to 0). -/
theorem calculate_progressive_cost_bracket_walk_witness :
    (-1 : ℚ) < 0 ∧ calculate_progressive_cost (-1) false = 0 :=
  ⟨by norm_num, (calculate_progressive_cost_bracket_walk (-1) false).2.2 (by norm_num)⟩

/-- The per-reading `kwh` column of `df_analysis`: `power_kW * 0.25`. -/
def kwhOf (r : Reading) : ℚ := r.power * 0.25

/-- The per-reading `tou_rate` column: second component of
`get_tou_details` on the row's timestamp. -/
def touRateOf (t : Timestamp) : ℚ := (get_tou_details t).2.1

/-- The per-reading `tou_flow_cost` column: `kwh * tou_rate`. -/
def flowCostOf (r : Reading) : ℚ := kwhOf r * touRateOf r.ts

/-- Calendar-month bin of a timestamp, counted in months since year 0;
pandas `resample('MS')` groups rows by exactly this key. -/
def monthKey (t : Timestamp) : ℕ := t.year * 12 + (t.month - 1)

/-- Month (1-12) encoded by a month key: what `monthly.index.month` reads
off the month-start bin label. -/
def binMonth (k : ℕ) : ℕ := k % 12 + 1

/-- The `(index.month >= 6) & (index.month <= 9)` flag of a month bin
(line computing `monthly_prog['is_summer']`). -/
def binIsSummer (k : ℕ) : Bool := decide (6 ≤ binMonth k) && decide (binMonth k ≤ 9)

/-- Rows of the analysis frame falling in month bin `k`. -/
def monthReadings (rs : List Reading) (k : ℕ) : List Reading :=
  rs.filter (fun r => monthKey r.ts = k)

/-- Monthly `kwh` aggregate of the first `resample('MS')` call (the TOU
table, line 107 of `app.py`). -/
def monthlyKwhTou (rs : List Reading) (k : ℕ) : ℚ :=
  ((monthReadings rs k).map kwhOf).sum

/-- Monthly `flow_cost` aggregate of the first `resample('MS')` call. -/
def monthlyFlowCost (rs : List Reading) (k : ℕ) : ℚ :=
  ((monthReadings rs k).map flowCostOf).sum

/-- Monthly `total_cost` of the TOU table: flow cost + basic fee +
surcharge `max(0, kwh - threshold) * rate`. -/
def touMonthlyTotal (rs : List Reading) (k : ℕ) : ℚ :=
  monthlyFlowCost rs k + basic_fee_monthly
    + max 0 (monthlyKwhTou rs k - surcharge_kwh_threshold) * surcharge_rate_per_kwh

/-- Monthly `kwh` aggregate of the second, independent `resample('MS')`
call (the progressive table, line 114 of `app.py`). -/
def monthlyKwhProg (rs : List Reading) (k : ℕ) : ℚ :=
  ((monthReadings rs k).map kwhOf).sum

/-- Monthly `total_cost` of the progressive table:
`calculate_progressive_cost(kwh, is_summer)` per month bin. -/
def progMonthlyTotal (rs : List Reading) (k : ℕ) : ℚ :=
  calculate_progressive_cost (monthlyKwhProg rs k) (binIsSummer k)

/-- Month bins generated by `resample('MS')`: every month from the
earliest to the latest key present, empty months included. -/
def keyRange : List ℕ → List ℕ
  | [] => []
  | k :: ks =>
    (List.range (ks.foldl max k + 1 - ks.foldl min k)).map (fun i => ks.foldl min k + i)

/-- Month bins of an analysis frame. -/
def resampleKeys (rs : List Reading) : List ℕ :=
  keyRange (rs.map (fun r => monthKey r.ts))

/-- The `results` dict `analyze_pricing_plans` returns. -/
structure TariffSummary where
  total_kwh : ℚ
  cost_progressive : ℚ
  cost_tou : ℚ
deriving DecidableEq

/-- One row of the `df_analysis` detail frame. -/
structure DetailRow where
  reading : Reading
  tou_category : TouCategory
  tou_rate : ℚ
  is_summer : Bool
  kwh : ℚ
  tou_flow_cost : ℚ
deriving DecidableEq

/-- Columns added to a row of `df_analysis`. -/
def detailRowOf (r : Reading) : DetailRow :=
  let d := get_tou_details r.ts
  { reading := r, tou_category := d.1, tou_rate := d.2.1, is_summer := d.2.2,
    kwh := r.power * 0.25, tou_flow_cost := r.power * 0.25 * d.2.1 }

/-- `analyze_pricing_plans(df_period)` from `app.py`: summary of total
kWh and the two scheme costs (each summed over calendar-month bins),
plus the per-reading detail frame. -/
def analyze_pricing_plans (rs : List Reading) : TariffSummary × List DetailRow :=
  ({ total_kwh := (rs.map kwhOf).sum
   , cost_progressive := ((resampleKeys rs).map (progMonthlyTotal rs)).sum
   , cost_tou := ((resampleKeys rs).map (touMonthlyTotal rs)).sum },
   rs.map detailRowOf)

lemma foldl_min_eq_init (a : ℕ) (ks : List ℕ) (h : ∀ x ∈ ks, a ≤ x) :
    ks.foldl min a = a := by
  induction ks generalizing a with
  | nil => rfl
  | cons k ks ih =>
    have h1 : min a k = a := min_eq_left (h k (List.mem_cons_self _ _))
    simpa [h1] using ih a (fun x hx => h x (List.mem_cons_of_mem _ hx))

lemma le_foldl_max (a : ℕ) (ks : List ℕ) : a ≤ ks.foldl max a := by
  induction ks generalizing a with
  | nil => exact le_rfl
  | cons k ks ih => exact le_trans (le_max_left a k) (ih (max a k))

lemma foldl_max_le (b a : ℕ) (ks : List ℕ) (ha : a ≤ b) (h : ∀ x ∈ ks, x ≤ b) :
    ks.foldl max a ≤ b := by
  induction ks generalizing a with
  | nil => exact ha
  | cons k ks ih =>
    exact ih _ (max_le ha (h k (List.mem_cons_self _ _)))
      (fun x hx => h x (List.mem_cons_of_mem _ hx))

lemma mem_le_foldl_max (a x : ℕ) (ks : List ℕ) (hx : x ∈ ks) : x ≤ ks.foldl max a := by
  induction ks generalizing a with
  | nil => cases hx
  | cons k ks ih =>
    rcases List.mem_cons.mp hx with rfl | hx
    · exact le_trans (le_max_right a x) (le_foldl_max _ ks)
    · exact ih _ hx

lemma resampleKeys_single (rs : List Reading) (k : ℕ) (hne : rs ≠ [])
    (hall : ∀ r ∈ rs, monthKey r.ts = k) : resampleKeys rs = [k] := by
  cases rs with
  | nil => exact absurd rfl hne
  | cons r t =>
    have hr : monthKey r.ts = k := hall r (List.mem_cons_self _ _)
    have hlo : (t.map (fun r => monthKey r.ts)).foldl min k = k :=
      foldl_min_eq_init _ _ (by
        intro x hx
        obtain ⟨r2, hr2, rfl⟩ := List.mem_map.mp hx
        exact le_of_eq (hall r2 (List.mem_cons_of_mem _ hr2)).symm)
    have hhi : (t.map (fun r => monthKey r.ts)).foldl max k = k := by
      refine le_antisymm (foldl_max_le _ _ _ le_rfl ?_) (le_foldl_max _ _)
      intro x hx
      obtain ⟨r2, hr2, rfl⟩ := List.mem_map.mp hx
      exact le_of_eq (hall r2 (List.mem_cons_of_mem _ hr2))
    simp [resampleKeys, keyRange, hr, hlo, hhi, List.range_succ]

lemma resampleKeys_pair (h1 h2 : List Reading) (k : ℕ)
    (h1ne : h1 ≠ []) (h2ne : h2 ≠ [])
    (hall1 : ∀ r ∈ h1, monthKey r.ts = k) (hall2 : ∀ r ∈ h2, monthKey r.ts = k + 1) :
    resampleKeys (h1 ++ h2) = [k, k + 1] := by
  cases h1 with
  | nil => exact absurd rfl h1ne
  | cons r t =>
    cases h2 with
    | nil => exact absurd rfl h2ne
    | cons r2 t2 =>
      have hr : monthKey r.ts = k := hall1 r (List.mem_cons_self _ _)
      have hmem : ∀ x ∈ (t ++ r2 :: t2).map (fun r => monthKey r.ts),
          x = k ∨ x = k + 1 := by
        intro x hx
        obtain ⟨r3, hr3, rfl⟩ := List.mem_map.mp hx
        rcases List.mem_append.mp hr3 with h | h
        · exact Or.inl (hall1 r3 (List.mem_cons_of_mem _ h))
        · exact Or.inr (hall2 r3 h)
      have hlo : ((t ++ r2 :: t2).map (fun r => monthKey r.ts)).foldl min k = k :=
        foldl_min_eq_init _ _ (by
          intro x hx
          rcases hmem x hx with rfl | rfl
          · exact le_rfl
          · exact Nat.le_succ k)
      have hhi : ((t ++ r2 :: t2).map (fun r => monthKey r.ts)).foldl max k = k + 1 := by
        refine le_antisymm (foldl_max_le _ _ _ (Nat.le_succ k) ?_) ?_
        · intro x hx
          rcases hmem x hx with rfl | rfl
          · exact Nat.le_succ _
          · exact le_rfl
        · refine mem_le_foldl_max _ _ _ ?_
          have : monthKey r2.ts = k + 1 := hall2 r2 (List.mem_cons_self _ _)
          refine List.mem_map.mpr ⟨r2, ?_, this⟩
          exact List.mem_append.mpr (Or.inr (List.mem_cons_self _ _))
      have hcons : (r :: t) ++ r2 :: t2 = r :: (t ++ r2 :: t2) := rfl
      rw [resampleKeys, hcons]
      simp only [List.map_cons, keyRange, hr, hlo, hhi]
      have h2 : k + 1 + 1 - k = 2 := by omega
      rw [h2]
      simp [List.range_succ]

lemma monthReadings_of_all (rs : List Reading) (k : ℕ)
    (hall : ∀ r ∈ rs, monthKey r.ts = k) : monthReadings rs k = rs := by
  refine List.filter_eq_self.mpr ?_
  intro r hr
  simpa using hall r hr

lemma monthReadings_of_none (rs : List Reading) (k k2 : ℕ)
    (hall : ∀ r ∈ rs, monthKey r.ts = k2) (hkk : k2 ≠ k) : monthReadings rs k = [] := by
  refine List.filter_eq_nil_iff.mpr ?_
  intro r hr
  simp [hall r hr, hkk]

lemma monthReadings_append (h1 h2 : List Reading) (k : ℕ) :
    monthReadings (h1 ++ h2) k = monthReadings h1 k ++ monthReadings h2 k :=
  List.filter_append _ _

lemma map_kwhOf (rs : List Reading) :
    rs.map kwhOf = rs.map (fun r => r.power * 0.25) := rfl

lemma map_flowCostOf (rs : List Reading) :
    rs.map flowCostOf = rs.map (fun r => r.power * 0.25 * touRateOf r.ts) := rfl

/-- Concrete reading in January 2024 (month key 24288). -/
def rJan : Reading := ⟨⟨20160, 2024, 1, 15, 10, 0, 0⟩, 2⟩

/-- Concrete reading in February 2024 (month key 24289). -/
def rFeb : Reading := ⟨⟨64800, 2024, 2, 15, 10, 0, 3⟩, 4⟩

/-- **C1.** Month partitioning: on a range spanning two adjacent calendar
months, the summary of the whole range is the component-wise sum of the
summaries of the two months analyzed independently — progressive
brackets and the TOU surcharge threshold reset at the month boundary. -/
theorem analyze_pricing_plans_two_months (h1 h2 : List Reading) (k : ℕ)
    (h1ne : h1 ≠ []) (h2ne : h2 ≠ [])
    (hall1 : ∀ r ∈ h1, monthKey r.ts = k) (hall2 : ∀ r ∈ h2, monthKey r.ts = k + 1) :
    (analyze_pricing_plans (h1 ++ h2)).1.total_kwh
        = (analyze_pricing_plans h1).1.total_kwh + (analyze_pricing_plans h2).1.total_kwh
    ∧ (analyze_pricing_plans (h1 ++ h2)).1.cost_progressive
        = (analyze_pricing_plans h1).1.cost_progressive
          + (analyze_pricing_plans h2).1.cost_progressive
    ∧ (analyze_pricing_plans (h1 ++ h2)).1.cost_tou
        = (analyze_pricing_plans h1).1.cost_tou + (analyze_pricing_plans h2).1.cost_tou := by
  have hk1 : resampleKeys h1 = [k] := resampleKeys_single _ _ h1ne hall1
  have hk2 : resampleKeys h2 = [k + 1] := resampleKeys_single _ _ h2ne hall2
  have hk12 : resampleKeys (h1 ++ h2) = [k, k + 1] :=
    resampleKeys_pair _ _ _ h1ne h2ne hall1 hall2
  have hm1 : monthReadings (h1 ++ h2) k = h1 := by
    rw [monthReadings_append, monthReadings_of_all h1 k hall1,
      monthReadings_of_none h2 k (k + 1) hall2 (by omega), List.append_nil]
  have hm2 : monthReadings (h1 ++ h2) (k + 1) = h2 := by
    rw [monthReadings_append, monthReadings_of_all h2 (k + 1) hall2,
      monthReadings_of_none h1 (k + 1) k hall1 (by omega), List.nil_append]
  refine ⟨?_, ?_, ?_⟩
  · simp [analyze_pricing_plans]
  · simp [analyze_pricing_plans, hk1, hk2, hk12, progMonthlyTotal, monthlyKwhProg,
      hm1, hm2, monthReadings_of_all h1 k hall1, monthReadings_of_all h2 (k + 1) hall2]
  · simp [analyze_pricing_plans, hk1, hk2, hk12, touMonthlyTotal, monthlyFlowCost,
      monthlyKwhTou, hm1, hm2, monthReadings_of_all h1 k hall1,
      monthReadings_of_all h2 (k + 1) hall2]

/-- Witness for C1 on one January reading and one February reading. -/
theorem analyze_pricing_plans_two_months_witness :
    ([rJan] : List Reading) ≠ [] ∧ ([rFeb] : List Reading) ≠ [] ∧
    (∀ r ∈ ([rJan] : List Reading), monthKey r.ts = 24288) ∧
    (∀ r ∈ ([rFeb] : List Reading), monthKey r.ts = 24288 + 1) ∧
    ((analyze_pricing_plans ([rJan] ++ [rFeb])).1.total_kwh
        = (analyze_pricing_plans [rJan]).1.total_kwh
          + (analyze_pricing_plans [rFeb]).1.total_kwh
    ∧ (analyze_pricing_plans ([rJan] ++ [rFeb])).1.cost_progressive
        = (analyze_pricing_plans [rJan]).1.cost_progressive
          + (analyze_pricing_plans [rFeb]).1.cost_progressive
    ∧ (analyze_pricing_plans ([rJan] ++ [rFeb])).1.cost_tou
        = (analyze_pricing_plans [rJan]).1.cost_tou
          + (analyze_pricing_plans [rFeb]).1.cost_tou) :=
  ⟨by simp, by simp, by decide, by decide,
    analyze_pricing_plans_two_months [rJan] [rFeb] 24288
      (by simp) (by simp) (by decide) (by decide)⟩

/-- **C6.** On a range inside a single calendar month the TOU bill is
flow cost + 75 basic fee + surcharge over 2000 kWh at 0.99, and the
progressive bill is the bracket walk on the month's aggregate kWh. -/
theorem analyze_pricing_plans_single_month (rs : List Reading) (k : ℕ)
    (hne : rs ≠ []) (hall : ∀ r ∈ rs, monthKey r.ts = k) :
    (analyze_pricing_plans rs).1.cost_tou
        = (rs.map (fun r => r.power * 0.25 * touRateOf r.ts)).sum + 75
          + max 0 ((rs.map (fun r => r.power * 0.25)).sum - 2000) * 0.99
    ∧ (analyze_pricing_plans rs).1.cost_progressive
        = calculate_progressive_cost ((rs.map (fun r => r.power * 0.25)).sum) (binIsSummer k)
    ∧ (analyze_pricing_plans rs).1.total_kwh = (rs.map (fun r => r.power * 0.25)).sum := by
  have hk : resampleKeys rs = [k] := resampleKeys_single _ _ hne hall
  have hm : monthReadings rs k = rs := monthReadings_of_all _ _ hall
  refine ⟨?_, ?_, ?_⟩ <;>
    simp [analyze_pricing_plans, hk, hm, touMonthlyTotal, monthlyFlowCost, monthlyKwhTou,
      monthlyKwhProg, progMonthlyTotal, map_kwhOf, map_flowCostOf, basic_fee_monthly,
      surcharge_kwh_threshold, surcharge_rate_per_kwh]

/-- Witness for C6 on a single January reading. -/
theorem analyze_pricing_plans_single_month_witness :
    ([rJan] : List Reading) ≠ [] ∧
    (∀ r ∈ ([rJan] : List Reading), monthKey r.ts = 24288) ∧
    ((analyze_pricing_plans [rJan]).1.cost_tou
        = (([rJan] : List Reading).map (fun r => r.power * 0.25 * touRateOf r.ts)).sum + 75
          + max 0 ((([rJan] : List Reading).map (fun r => r.power * 0.25)).sum - 2000) * 0.99
    ∧ (analyze_pricing_plans [rJan]).1.cost_progressive
        = calculate_progressive_cost
            ((([rJan] : List Reading).map (fun r => r.power * 0.25)).sum) (binIsSummer 24288)
    ∧ (analyze_pricing_plans [rJan]).1.total_kwh
        = (([rJan] : List Reading).map (fun r => r.power * 0.25)).sum) :=
  ⟨by simp, by decide,
    analyze_pricing_plans_single_month [rJan] 24288 (by simp) (by decide)⟩

/-- **C10.** The summary `total_kwh` is the sum of the detail rows'
`power_kW * 0.25`, and the two independent monthly resample aggregates
feeding the TOU and progressive bills agree on every month bin, so both
schemes are billed on the same monthly and total energy. -/
theorem analyze_pricing_plans_energy_consistency (rs : List Reading) :
    (analyze_pricing_plans rs).1.total_kwh
        = ((analyze_pricing_plans rs).2.map (fun d => d.reading.power * 0.25)).sum
    ∧ ∀ k, monthlyKwhTou rs k = monthlyKwhProg rs k := by
  constructor
  · show (rs.map kwhOf).sum = ((rs.map detailRowOf).map (fun d => d.reading.power * 0.25)).sum
    rw [List.map_map]
    rfl
  · intro k
    rfl

/-- Concrete Saturday timestamp (July, 10:00). -/
def tSat : Timestamp := ⟨0, 2024, 7, 6, 10, 0, 5⟩

/-- **C4.** The TOU classifier: summer iff month in 6..9; weekends are
unconditionally off-peak; weekday peak windows are 9-24h in summer and
6-11h or 14-24h otherwise (gap 11-14h off-peak); the rate is the
schedule entry for the computed (season, category). -/
theorem get_tou_details_spec (t : Timestamp) :
    ((get_tou_details t).2.2 = true ↔
      (t.month = 6 ∨ t.month = 7 ∨ t.month = 8 ∨ t.month = 9))
    ∧ (5 ≤ t.dayofweek → (get_tou_details t).1 = TouCategory.off_peak)
    ∧ (t.dayofweek < 5 → (get_tou_details t).2.2 = true →
        ((get_tou_details t).1 = TouCategory.peak ↔ (9 ≤ t.hour ∧ t.hour < 24)))
    ∧ (t.dayofweek < 5 → (get_tou_details t).2.2 = false →
        ((get_tou_details t).1 = TouCategory.peak ↔
          ((6 ≤ t.hour ∧ t.hour < 11) ∨ (14 ≤ t.hour ∧ t.hour < 24))))
    ∧ (get_tou_details t).2.1
        = TOU_RATES_DATA_rates (get_tou_details t).2.2 (get_tou_details t).1 := by
  refine ⟨?_, ?_, ?_, ?_, rfl⟩
  · simp only [get_tou_details, Bool.and_eq_true, decide_eq_true_eq]
    omega
  · intro hdw
    simp [get_tou_details, hdw]
  · intro hdw hs
    have hm : 6 ≤ t.month ∧ t.month ≤ 9 := by
      simpa only [get_tou_details, Bool.and_eq_true, decide_eq_true_eq] using hs
    have hdw2 : ¬ (5 ≤ t.dayofweek) := by omega
    by_cases hh : 9 ≤ t.hour ∧ t.hour < 24
    · simp [get_tou_details, hdw2, hm.1, hm.2, hh]
    · simp [get_tou_details, hdw2, hm.1, hm.2, hh]
  · intro hdw hs
    have hdw2 : ¬ (5 ≤ t.dayofweek) := by omega
    have hflag : (decide (6 ≤ t.month) && decide (t.month ≤ 9)) = false := by
      simpa only [get_tou_details] using hs
    by_cases hh : (6 ≤ t.hour ∧ t.hour < 11) ∨ (14 ≤ t.hour ∧ t.hour < 24)
    · simp [get_tou_details, hdw2, hflag, hh]
    · simp [get_tou_details, hdw2, hflag, hh]

/-- Witness for C4 at a Saturday timestamp: weekend forces off-peak. -/
theorem get_tou_details_spec_witness :
    5 ≤ tSat.dayofweek ∧ (get_tou_details tSat).1 = TouCategory.off_peak :=
  ⟨by decide, (get_tou_details_spec tSat).2.1 (by decide)⟩

/-- `df_history.iloc[-1]`: positionally last row of the (chronological)
history frame. -/
def lastReading (rs : List Reading) : Reading := rs.getLastD noReading

/-- `df_history.index.max()`: the timestamp with the largest absolute
time (timestamps are unique per the data model). -/
def maxTs : List Reading → Timestamp
  | [] => noReading.ts
  | r :: t => t.foldl (fun m x => if m.abs < x.ts.abs then x.ts else m) r.ts

/-- `df_history.index.min()`. -/
def minTs : List Reading → Timestamp
  | [] => noReading.ts
  | r :: t => t.foldl (fun m x => if x.ts.abs < m.abs then x.ts else m) r.ts

/-- Smallest absolute time in a history (`index.min()` as a comparison
value). -/
def minAbs (rs : List Reading) : ℤ := (minTs rs).abs

/-- `df.last('{days}D')` on a chronologically indexed frame: the rows
strictly after `index[-1] - days` (pandas excludes the left endpoint for
tick offsets when it is present, and no row can equal it otherwise). -/
def lastWindow (rs : List Reading) (days : ℤ) : List Reading :=
  rs.filter (fun r => (lastReading rs).ts.abs - days * 1440 < r.ts.abs)

/-- `df.last('{days}D')['power_kW'].sum() * 0.25`. -/
def trailingKwh (rs : List Reading) (days : ℤ) : ℚ :=
  ((lastWindow rs days).map (fun r => r.power)).sum * 0.25

/-- `timestamp.normalize()` / `timestamp.date()` as an absolute time:
midnight of the timestamp's day. -/
def dateAbs (t : Timestamp) : ℤ := t.abs - (t.hour * 60 + t.minute)

/-- The `kpis` dict of `get_core_kpis`. -/
structure KPISet where
  projected_cost : ℚ
  kwh_this_month_so_far : ℚ
  kwh_last_7_days : ℚ
  kwh_previous_7_days : ℚ
  weekly_delta_percent : ℚ
  status_data_available : Bool
  peak_kwh : ℚ
  off_peak_kwh : ℚ
  PRICE_PER_KWH_AVG : ℚ
  kwh_today_so_far : ℚ
  cost_today_so_far : ℚ
  latest_data : Option Reading
deriving DecidableEq

/-- The initial `kpis` dict (zeroed fields, default average price 3.5,
availability false). -/
def kpisInit : KPISet :=
  { projected_cost := 0, kwh_this_month_so_far := 0, kwh_last_7_days := 0,
    kwh_previous_7_days := 0, weekly_delta_percent := 0, status_data_available := false,
    peak_kwh := 0, off_peak_kwh := 0, PRICE_PER_KWH_AVG := 3.5,
    kwh_today_so_far := 0, cost_today_so_far := 0, latest_data := none }

/-- Step 1 of the `try` block: projected monthly cost from the trailing
30 days, and the average price guard against a zero baseline. -/
def kpiStep1 (rs : List Reading) (k : KPISet) : KPISet :=
  let kwh30 := trailingKwh rs 30
  let isSummerNow : Bool := decide (6 ≤ (maxTs rs).month) && decide ((maxTs rs).month ≤ 9)
  let projected := calculate_progressive_cost kwh30 isSummerNow
  { k with
    projected_cost := projected
    PRICE_PER_KWH_AVG := if 0 < kwh30 then projected / kwh30 else k.PRICE_PER_KWH_AVG }

/-- Step 2: today-so-far kWh (rows from midnight of the anchor's day)
and its cost at the current average price. -/
def kpiStep2 (rs : List Reading) (k : KPISet) : KPISet :=
  let kwhToday :=
    ((rs.filter (fun r => dateAbs (maxTs rs) ≤ r.ts.abs)).map (fun r => r.power)).sum * 0.25
  { k with
    kwh_today_so_far := kwhToday
    cost_today_so_far := kwhToday * k.PRICE_PER_KWH_AVG }

/-- Step 3: month-to-date kWh, starting from day 1 of the anchor's month
or from the history's earliest date if that is later. -/
def kpiStep3 (rs : List Reading) (k : KPISet) : KPISet :=
  let som0 := dateAbs (maxTs rs) - (((maxTs rs).day : ℤ) - 1) * 1440
  let som := if som0 < dateAbs (minTs rs) then dateAbs (minTs rs) else som0
  { k with kwh_this_month_so_far :=
      ((rs.filter (fun r => som ≤ r.ts.abs)).map (fun r => r.power)).sum * 0.25 }

/-- Step 4: weekly comparison.  The trailing-7-day kWh is written
unconditionally; the preceding-7-day kWh, the delta and the availability
flag are written only when the preceding window starts no earlier than
the history. -/
def kpiStep4 (rs : List Reading) (k : KPISet) : KPISet :=
  if minAbs rs ≤ minAbs (lastWindow rs 7) - 7 * 1440 then
    let kwhPrev :=
      ((rs.filter (fun r => minAbs (lastWindow rs 7) - 7 * 1440 ≤ r.ts.abs
          ∧ r.ts.abs ≤ minAbs (lastWindow rs 7))).map (fun r => r.power)).sum * 0.25
    { k with
      kwh_last_7_days := trailingKwh rs 7
      kwh_previous_7_days := kwhPrev
      weekly_delta_percent := if 0 < kwhPrev
        then (trailingKwh rs 7 - kwhPrev) / kwhPrev * 100
        else k.weekly_delta_percent
      status_data_available := true }
  else { k with kwh_last_7_days := trailingKwh rs 7 }

/-- Step 5: trailing-30-day peak / off-peak kWh split via the TOU
classifier. -/
def kpiStep5 (rs : List Reading) (k : KPISet) : KPISet :=
  { k with
    peak_kwh := (((lastWindow rs 30).filter
        (fun r => (get_tou_details r.ts).1 = TouCategory.peak)).map
        (fun r => r.power * 0.25)).sum
    off_peak_kwh := (((lastWindow rs 30).filter
        (fun r => (get_tou_details r.ts).1 = TouCategory.off_peak)).map
        (fun r => r.power * 0.25)).sum }

/-- Step 6: surface the latest reading. -/
def kpiStep6 (rs : List Reading) (k : KPISet) : KPISet :=
  { k with latest_data := some (lastReading rs) }

/-- The six statement groups of the `try` block, in program order. -/
def kpiSteps : List (List Reading → KPISet → KPISet) :=
  [kpiStep1, kpiStep2, kpiStep3, kpiStep4, kpiStep5, kpiStep6]

/-- `get_core_kpis` with an exception injected at the start of step `n`
(0-based): the `except` handler returns the dict as mutated so far, so
only the first `n` steps are applied.  `n = 6` is the run with no
exception. -/
def get_core_kpis_upto (rs : List Reading) (n : ℕ) : KPISet :=
  if rs = [] then kpisInit
  else (kpiSteps.take n).foldl (fun k f => f rs k) kpisInit

/-- `get_core_kpis(df_history)` from `app.py` (no exception raised). -/
def get_core_kpis (rs : List Reading) : KPISet := get_core_kpis_upto rs 6

lemma get_core_kpis_run (rs : List Reading) (hne : rs ≠ []) :
    get_core_kpis rs
      = kpiStep6 rs (kpiStep5 rs (kpiStep4 rs (kpiStep3 rs (kpiStep2 rs
          (kpiStep1 rs kpisInit))))) := by
  rw [get_core_kpis, get_core_kpis_upto, if_neg hne]
  rfl

/-- Two 1-kW readings one day apart (span 1 day, far below 14 days). -/
def histShort : List Reading :=
  [⟨⟨0, 2024, 1, 1, 0, 0, 0⟩, 1⟩, ⟨⟨1440, 2024, 1, 2, 0, 0, 1⟩, 1⟩]

/-- Two 1-kW readings eight days apart (span 8 days, below 14 days,
but the trailing-7-day window contains only the last reading). -/
def histSparse : List Reading :=
  [⟨⟨0, 2024, 1, 1, 0, 0, 0⟩, 1⟩, ⟨⟨11520, 2024, 1, 9, 0, 0, 1⟩, 1⟩]

/-- Single reading history for the C5 witness. -/
def histOne : List Reading := [⟨⟨0, 2024, 3, 1, 0, 0, 4⟩, 2⟩]

/-- History for the C2 failing input (same shape as `histSparse`). -/
def histC2 : List Reading :=
  [⟨⟨0, 2024, 1, 1, 0, 0, 0⟩, 1⟩, ⟨⟨11520, 2024, 1, 9, 0, 0, 1⟩, 1⟩]

lemma get_core_kpis_run4 (rs : List Reading) (hne : rs ≠ []) :
    get_core_kpis_upto rs 4
      = kpiStep4 rs (kpiStep3 rs (kpiStep2 rs (kpiStep1 rs kpisInit))) := by
  rw [get_core_kpis_upto, if_neg hne]
  rfl

lemma kpiStep4_of_not_guard (rs : List Reading) (k : KPISet)
    (hng : ¬ (minAbs rs ≤ minAbs (lastWindow rs 7) - 7 * 1440)) :
    kpiStep4 rs k = { k with kwh_last_7_days := trailingKwh rs 7 } := by
  simp only [kpiStep4]
  rw [if_neg hng]

example : (get_core_kpis histShort).status_data_available = false := by decide
example : (get_core_kpis histSparse).status_data_available = true := by decide
example : (get_core_kpis histShort).kwh_last_7_days = 1/2 := by
  rw [get_core_kpis_run histShort (by decide)]
  norm_num [kpiStep6, kpiStep5, kpiStep4, kpiStep3, kpiStep2, kpiStep1, kpisInit,
    histShort, trailingKwh, lastWindow, lastReading, minAbs, minTs, maxTs, dateAbs,
    List.getLastD, List.filter]

/-- **C5 (counterexample).** Two histories spanning fewer than 14 days on
which the claimed conclusion fails: on the first the trailing-7-day kWh
field is 1/2, not its zero default (the code writes it before the
availability guard); on the second the availability flag is even true,
because the guard compares against the start of the trailing-7-day
window shifted back 7 days, not against the anchor minus 14 days. -/
theorem get_core_kpis_under_14_days_counterexample :
    ((maxTs histShort).abs - minAbs histShort < 14 * 1440
      ∧ (get_core_kpis histShort).status_data_available = false
      ∧ (get_core_kpis histShort).kwh_last_7_days = 1/2)
    ∧ ((maxTs histSparse).abs - minAbs histSparse < 14 * 1440
      ∧ (get_core_kpis histSparse).status_data_available = true) := by
  refine ⟨⟨by decide, by decide, ?_⟩, by decide, by decide⟩
  rw [get_core_kpis_run histShort (by decide)]
  norm_num [kpiStep6, kpiStep5, kpiStep4, kpiStep3, kpiStep2, kpiStep1, kpisInit,
    histShort, trailingKwh, lastWindow, lastReading, minAbs, minTs, maxTs, dateAbs,
    List.getLastD, List.filter]

/-- **C5 (amended).** Whenever the preceding-7-day window would start
before the earliest timestamp (in particular on any history spanning
less than 7 days), `get_core_kpis` leaves the availability flag false
and the preceding-7-day kWh and weekly delta at their zero defaults,
while the trailing-7-day kWh is computed from the trailing window
regardless of availability. -/
theorem get_core_kpis_weekly_guard (rs : List Reading) (hne : rs ≠ [])
    (hg : minAbs (lastWindow rs 7) - 7 * 1440 < minAbs rs) :
    (get_core_kpis rs).status_data_available = false
    ∧ (get_core_kpis rs).kwh_previous_7_days = 0
    ∧ (get_core_kpis rs).weekly_delta_percent = 0
    ∧ (get_core_kpis rs).kwh_last_7_days = trailingKwh rs 7 := by
  have hng : ¬ (minAbs rs ≤ minAbs (lastWindow rs 7) - 7 * 1440) := not_le.mpr hg
  rw [get_core_kpis_run rs hne, kpiStep4_of_not_guard rs _ hng]
  exact ⟨rfl, rfl, rfl, rfl⟩

/-- Witness for C5 (amended) on a one-reading history. -/
theorem get_core_kpis_weekly_guard_witness :
    histOne ≠ [] ∧ minAbs (lastWindow histOne 7) - 7 * 1440 < minAbs histOne
    ∧ ((get_core_kpis histOne).status_data_available = false
      ∧ (get_core_kpis histOne).kwh_previous_7_days = 0
      ∧ (get_core_kpis histOne).weekly_delta_percent = 0
      ∧ (get_core_kpis histOne).kwh_last_7_days = trailingKwh histOne 7) :=
  ⟨by decide, by decide, get_core_kpis_weekly_guard histOne (by decide) (by decide)⟩

/-- **C2 (failing input).** `histC2` spans more than 7 days, so step 4
sets the availability flag; an exception injected at the start of step 5
(the peak/off-peak split) is caught, and the handler returns the dict as
already mutated: availability is true on the error path and the
today-so-far and trailing-7-day kWh keep their computed nonzero values,
while the fields of the failed and skipped steps keep their defaults —
not the fully zeroed, unavailable KPISet the claim requires. -/
theorem get_core_kpis_partial_on_failure :
    (get_core_kpis_upto histC2 4).status_data_available = true
    ∧ (get_core_kpis_upto histC2 4).kwh_today_so_far = 1/4
    ∧ (get_core_kpis_upto histC2 4).kwh_last_7_days = 1/4
    ∧ (get_core_kpis_upto histC2 4).peak_kwh = 0
    ∧ (get_core_kpis_upto histC2 4).latest_data = none := by
  refine ⟨by decide, ?_, ?_, by decide, by decide⟩ <;>
  · rw [get_core_kpis_run4 histC2 (by decide)]
    norm_num [kpiStep4, kpiStep3, kpiStep2, kpiStep1, kpisInit,
      histC2, trailingKwh, lastWindow, lastReading, minAbs, minTs, maxTs, dateAbs,
      List.getLastD, List.filter]

/-- The centered pandas rolling window of width `96 * 7 = 672` at
position `i`: rows `i - 336` through `i + 335`, clipped to the series
(the anomaly-analysis block of `show_analysis_page`). -/
def rollingWindow (xs : List ℚ) (i : ℕ) : List ℚ :=
  (xs.drop (i - 336)).take (min xs.length (i + 336) - (i - 336))

/-- Mean of a window (`rolling(...).mean()`). -/
def listMean (w : List ℚ) : ℚ := w.sum / w.length

/-- Sample variance of a window, pandas default `ddof = 1`
(`rolling(...).std()` squared). -/
def sampleVar (w : List ℚ) : ℚ :=
  (w.map (fun x => (x - listMean w)^2)).sum / ((w.length : ℚ) - 1)

/-- `rolling_avg` column at position `i`. -/
def rolling_avg (xs : List ℚ) (i : ℕ) : ℚ := listMean (rollingWindow xs i)

/-- Square of the `rolling_std` column at position `i`; kept as the
variance because the square root leaves `ℚ`.  The strict comparison
`power > rolling_avg + 2 * rolling_std` of the source is decided exactly
by `power > avg` together with `(power - avg)^2 > 4 * var`; the claim
theorem proves this equivalence against the real-valued threshold. -/
def rolling_var (xs : List ℚ) (i : ℕ) : ℚ := sampleVar (rollingWindow xs i)

/-- The anomaly test of the source at position `i`: the `min_periods=96`
guard (mean/std are NaN below it, and `power > NaN` is false), and the
exact-rational decision of `power > rolling_avg + 2 * rolling_std`. -/
def anomalyFlag (xs : List ℚ) (i : ℕ) : Bool :=
  decide (96 ≤ (rollingWindow xs i).length)
  && decide (rolling_avg xs i < xs.getD i 0)
  && decide (4 * rolling_var xs i < (xs.getD i 0 - rolling_avg xs i)^2)

/-- `anomalies = df[df['power_kW'] > df['anomaly_threshold']]` as the
list of flagged positions, in chronological order. -/
def detectAnomalies (xs : List ℚ) : List ℕ :=
  (List.range xs.length).filter (fun i => anomalyFlag xs i)

lemma length_rollingWindow (xs : List ℚ) (i : ℕ) :
    (rollingWindow xs i).length = min xs.length (i + 336) - (i - 336) := by
  simp [rollingWindow]
  omega

lemma sampleVar_nonneg (w : List ℚ) (h : 2 ≤ w.length) : 0 ≤ sampleVar w := by
  apply div_nonneg
  · apply List.sum_nonneg
    intro x hx
    obtain ⟨y, hy, rfl⟩ := List.mem_map.mp hx
    positivity
  · have h2 : (2 : ℚ) ≤ (w.length : ℚ) := by exact_mod_cast h
    linarith

lemma sqrt_threshold_iff (p a v : ℝ) (hv : 0 ≤ v) :
    a + 2 * Real.sqrt v < p ↔ (a < p ∧ 4 * v < (p - a)^2) := by
  have hs : 0 ≤ Real.sqrt v := Real.sqrt_nonneg v
  have hsq : Real.sqrt v ^ 2 = v := Real.sq_sqrt hv
  constructor
  · intro h
    have hap : a < p := by linarith
    refine ⟨hap, ?_⟩
    have h2 : 2 * Real.sqrt v < p - a := by linarith
    nlinarith [h2, hs, hsq]
  · rintro ⟨hap, hv2⟩
    by_contra hcon
    push_neg at hcon
    have h3 : p - a ≤ 2 * Real.sqrt v := by linarith
    nlinarith [h3, hs, hsq, hap]

lemma rollingWindow_replicate (n : ℕ) (c : ℚ) (i : ℕ) :
    rollingWindow (List.replicate n c) i
      = List.replicate (min n (i + 336) - (i - 336)) c := by
  simp [rollingWindow, List.drop_replicate, List.take_replicate]
  omega

lemma listMean_replicate (k : ℕ) (c : ℚ) (hk : k ≠ 0) :
    listMean (List.replicate k c) = c := by
  simp [listMean, List.sum_replicate, nsmul_eq_mul]
  exact mul_div_cancel_left₀ c (Nat.cast_ne_zero.mpr hk)

lemma sampleVar_replicate (k : ℕ) (c : ℚ) : sampleVar (List.replicate k c) = 0 := by
  cases k with
  | zero => simp [sampleVar, listMean]
  | succ m =>
    have hm : listMean (List.replicate (m + 1) c) = c :=
      listMean_replicate _ _ (Nat.succ_ne_zero m)
    simp [sampleVar, hm, List.map_replicate, List.sum_replicate]

lemma getD_replicate_of_lt (n i : ℕ) (c : ℚ) (h : i < n) :
    (List.replicate n c).getD i 0 = c := by
  simp [List.getD, List.getElem?_replicate, h]

/-- **C7.** A position is flagged iff it is in range, its centered
672-sample window holds at least 96 samples, and the power strictly
exceeds `rolling_avg + 2 * rolling_std` (as a real number); a position
with fewer than 96 window samples is never flagged; and on a
constant-rate series of at least 7 days the rolling average is the
constant and the variance 0 at every position (so every threshold is the
constant) and the anomaly list is empty. -/
theorem detectAnomalies_spec :
    (∀ (xs : List ℚ) (i : ℕ), i ∈ detectAnomalies xs ↔
      (i < xs.length ∧ 96 ≤ (rollingWindow xs i).length ∧
        ((rolling_avg xs i : ℝ) + 2 * Real.sqrt ((rolling_var xs i : ℚ) : ℝ)
          < ((xs.getD i 0 : ℚ) : ℝ))))
    ∧ (∀ (xs : List ℚ) (i : ℕ), (rollingWindow xs i).length < 96 → i ∉ detectAnomalies xs)
    ∧ (∀ (c : ℚ) (n : ℕ), 672 ≤ n →
        detectAnomalies (List.replicate n c) = []
        ∧ ∀ i < n, rolling_avg (List.replicate n c) i = c
            ∧ rolling_var (List.replicate n c) i = 0) := by
  have hmain : ∀ (xs : List ℚ) (i : ℕ), i ∈ detectAnomalies xs ↔
      (i < xs.length ∧ 96 ≤ (rollingWindow xs i).length ∧
        ((rolling_avg xs i : ℝ) + 2 * Real.sqrt ((rolling_var xs i : ℚ) : ℝ)
          < ((xs.getD i 0 : ℚ) : ℝ))) := by
    intro xs i
    rw [detectAnomalies, List.mem_filter, List.mem_range]
    simp only [anomalyFlag, Bool.and_eq_true, decide_eq_true_eq]
    constructor
    · rintro ⟨hi, ⟨hc, ha⟩, hv⟩
      have hvar : 0 ≤ rolling_var xs i := sampleVar_nonneg _ (by omega)
      refine ⟨hi, hc, ?_⟩
      exact (sqrt_threshold_iff _ _ _ (by exact_mod_cast hvar)).mpr
        ⟨by exact_mod_cast ha, by exact_mod_cast hv⟩
    · rintro ⟨hi, hc, h⟩
      have hvar : 0 ≤ rolling_var xs i := sampleVar_nonneg _ (by omega)
      obtain ⟨ha, hv⟩ := (sqrt_threshold_iff _ _ _ (by exact_mod_cast hvar)).mp h
      exact ⟨hi, ⟨hc, by exact_mod_cast ha⟩, by exact_mod_cast hv⟩
  refine ⟨hmain, ?_, ?_⟩
  · intro xs i h hmem
    obtain ⟨_, hc, _⟩ := (hmain xs i).mp hmem
    omega
  · intro c n hn
    have havg : ∀ i, i < n → rolling_avg (List.replicate n c) i = c := by
      intro i hi
      rw [rolling_avg, rollingWindow_replicate]
      exact listMean_replicate _ _ (by omega)
    have hvar : ∀ i, rolling_var (List.replicate n c) i = 0 := by
      intro i
      rw [rolling_var, rollingWindow_replicate]
      exact sampleVar_replicate _ _
    refine ⟨?_, fun i hi => ⟨havg i hi, hvar i⟩⟩
    rw [detectAnomalies]
    refine List.filter_eq_nil_iff.mpr ?_
    intro i hi
    have hi2 : i < n := by simpa using List.mem_range.mp hi
    simp [anomalyFlag, havg i hi2, List.getElem?_replicate, hi2, lt_irrefl]

/-- Witness for C7 on a constant series of exactly 7 days at 1 kW. -/
theorem detectAnomalies_spec_witness :
    (672 : ℕ) ≤ 672
    ∧ (detectAnomalies (List.replicate 672 (1 : ℚ)) = []
      ∧ ∀ i < 672, rolling_avg (List.replicate 672 (1 : ℚ)) i = 1
          ∧ rolling_var (List.replicate 672 (1 : ℚ)) i = 0) :=
  ⟨le_rfl, detectAnomalies_spec.2.2 1 672 le_rfl⟩
